import Mathlib

/-!
Verification development for the server-side spatial query subsystem
(`codemp/server/sv_world.cpp`): the world-sector partition tree, the entity
link registry, the area (region) query, and the move clipper.

Float coordinates of the source are modelled as exact rationals; C `int`
values are modelled as `Int` (or `Nat` where the source value is provably
nonnegative).  The exact-shape intersection engine (`CM_*`) and the entity
store are external collaborators of this file's subject and are modelled as
oracle parameters.
-/

namespace SvWorld

/-- A 3-component vector of rational coordinates (models `vec3_t`). -/
structure Vec3 where
  x : ℚ
  y : ℚ
  z : ℚ
deriving DecidableEq

/-- Component access by axis index, models `v[i]` on a `vec3_t`. -/
def Vec3.nth (v : Vec3) : Fin 3 → ℚ
  | 0 => v.x
  | 1 => v.y
  | 2 => v.z

/-- Functional update of one component, models `v[i] = a`. -/
def Vec3.setNth (v : Vec3) : Fin 3 → ℚ → Vec3
  | 0, a => { v with x := a }
  | 1, a => { v with y := a }
  | 2, a => { v with z := a }

/-- The zero vector (models `vec3_origin`). -/
def vec3origin : Vec3 := ⟨0, 0, 0⟩

/-! ## Spatial partition tree construction (`SV_CreateworldSector`) -/

/-- Shape of a world sector node: a leaf (source: `axis == -1`), or an
internal node with a split axis, split coordinate and two children.  In the
source the nodes live in the flat array `sv_worldSectors`; the tree shape is
modelled directly. -/
inductive WSTree where
  | leaf : WSTree
  | node (axis : Fin 3) (dist : ℚ) (c0 c1 : WSTree) : WSTree
deriving DecidableEq

/-- `AREA_DEPTH` from the source. -/
def AREA_DEPTH : ℕ := 4

/-- Recursive builder, indexed by the remaining depth
(`AREA_DEPTH - depth` of the source's `depth` argument).  Mirrors
`SV_CreateworldSector`: at remaining depth `0` produce a leaf; otherwise
pick the longer of the X and Y extents, split at
`0.5 * (maxs[axis] + mins[axis])`, and build `children[0]` on the upper
half (`mins2[axis] = dist`) and `children[1]` on the lower half
(`maxs1[axis] = dist`). -/
def createWorldSectorRec : ℕ → Vec3 → Vec3 → WSTree
  | 0, _, _ => .leaf
  | n + 1, mins, maxs =>
    let size : Vec3 := ⟨maxs.x - mins.x, maxs.y - mins.y, maxs.z - mins.z⟩
    let axis : Fin 3 := if size.nth 0 > size.nth 1 then 0 else 1
    let dist : ℚ := (1 / 2) * (maxs.nth axis + mins.nth axis)
    let mins2 := mins.setNth axis dist
    let maxs1 := maxs.setNth axis dist
    .node axis dist (createWorldSectorRec n mins2 maxs) (createWorldSectorRec n mins maxs1)

/-- `SV_CreateworldSector depth mins maxs` for `depth ≤ AREA_DEPTH`
(the source recursion always starts at depth 0 and stops when
`depth == AREA_DEPTH`). -/
def SV_CreateworldSector (depth : ℕ) (mins maxs : Vec3) : WSTree :=
  createWorldSectorRec (AREA_DEPTH - depth) mins maxs

/-- Number of sector nodes produced (the source increments
`sv_numworldSectors` once per call). -/
def countNodes : WSTree → ℕ
  | .leaf => 1
  | .node _ _ c0 c1 => 1 + countNodes c0 + countNodes c1

/-- Specification predicate for the claimed tree shape, stated from the
claim's words: with `n` levels remaining, a leaf; otherwise an internal node
with exactly two children that splits at the midpoint of the longer of the
box's X and Y extents, children covering the upper and lower halves. -/
def sectorShape : ℕ → Vec3 → Vec3 → WSTree → Prop
  | 0, _, _, t => t = .leaf
  | n + 1, mins, maxs, t =>
    ∃ c0 c1,
      let axis : Fin 3 := if maxs.x - mins.x > maxs.y - mins.y then 0 else 1
      let dist : ℚ := (1 / 2) * (maxs.nth axis + mins.nth axis)
      t = .node axis dist c0 c1 ∧
      sectorShape n (mins.setNth axis dist) maxs c0 ∧
      sectorShape n mins (maxs.setNth axis dist) c1

theorem countNodes_createWorldSectorRec (n : ℕ) :
    ∀ mins maxs, countNodes (createWorldSectorRec n mins maxs) = 2 ^ (n + 1) - 1 := by
  induction n with
  | zero => intro mins maxs; rfl
  | succ n ih =>
    intro mins maxs
    simp only [createWorldSectorRec, countNodes, ih]
    have h : 1 ≤ 2 ^ (n + 1) := Nat.one_le_two_pow
    rw [pow_succ]
    omega

theorem sectorShape_createWorldSectorRec (n : ℕ) :
    ∀ mins maxs, sectorShape n mins maxs (createWorldSectorRec n mins maxs) := by
  induction n with
  | zero => intro mins maxs; rfl
  | succ n ih =>
    intro mins maxs
    exact ⟨_, _, rfl, ih _ _, ih _ _⟩

/-- C7: for every world bounding box, `SV_CreateworldSector` starting at
depth 0 produces exactly `2^(AREA_DEPTH+1) - 1 = 31` nodes; every node with
remaining depth is internal with two children and splits at
`0.5 * (maxs[axis] + mins[axis])` along the longer of the box's X and Y
extents (ties pick Y, as the `size[0] > size[1]` test does); depth-terminal
nodes are leaves.  Purity in the world bounds and depth is definitional for
the embedding (`SV_CreateworldSector` is a function). -/
theorem C7_create_world_sector_shape (mins maxs : Vec3) :
    countNodes (SV_CreateworldSector 0 mins maxs) = 2 ^ (AREA_DEPTH + 1) - 1 ∧
    countNodes (SV_CreateworldSector 0 mins maxs) = 31 ∧
    sectorShape AREA_DEPTH mins maxs (SV_CreateworldSector 0 mins maxs) := by
  refine ⟨?_, ?_, ?_⟩
  · rw [SV_CreateworldSector, countNodes_createWorldSectorRec]; rfl
  · rw [SV_CreateworldSector, countNodes_createWorldSectorRec]; rfl
  · exact sectorShape_createWorldSectorRec AREA_DEPTH mins maxs

/-! ## Area query (`SV_AreaEntities_r`, `SV_AreaEntities`)

A sector tree populated with linked entities is modelled by `ANode`: every
node (internal or leaf) carries the chain of entities linked directly at it,
mirroring the `entities` field of `worldSector_t`. -/

/-- The per-entity data the area query reads: the entity number
(`check - sv.svEntities`, equal to `s->number`) and the absolute bounds set
by `SV_LinkEntity`. -/
structure AEnt where
  num : ℕ
  absmin : Vec3
  absmax : Vec3
deriving DecidableEq

/-- A world sector tree with linked entities.  `leaf` models `axis == -1`
nodes; `node` carries the split axis and distance used by the pruning
tests. -/
inductive ANode where
  | leaf (ents : List AEnt) : ANode
  | node (axis : Fin 3) (dist : ℚ) (ents : List AEnt) (c0 c1 : ANode) : ANode
deriving DecidableEq

/-- The separating-axis rejection test of `SV_AreaEntities_r` (an entity is
collected iff this is `true`): the entity's absolute box meets the closed
query box on all three axes. -/
def entOverlap (e : AEnt) (mins maxs : Vec3) : Bool :=
  !(e.absmin.x > maxs.x || e.absmin.y > maxs.y || e.absmin.z > maxs.z ||
    e.absmax.x < mins.x || e.absmax.y < mins.y || e.absmax.z < mins.z)

/-- The entity-chain loop of `SV_AreaEntities_r`: walk the chain, skip
non-overlapping entities, and on an overlapping entity first check the
`count == maxcount` cap (returning early with the `MAXCOUNT` diagnostic,
modelled by the `true` flag) before appending the entity number. -/
def areaEntsLoop (mins maxs : Vec3) (maxcount : ℤ) :
    List AEnt → List ℕ → List ℕ × Bool
  | [], acc => (acc, false)
  | e :: rest, acc =>
    if entOverlap e mins maxs then
      if (acc.length : ℤ) = maxcount then (acc, true)
      else areaEntsLoop mins maxs maxcount rest (acc ++ [e.num])
    else areaEntsLoop mins maxs maxcount rest acc

/-- `SV_AreaEntities_r`: collect this node's chain (stopping the whole node
visit if the cap diagnostic fired), then recurse into `children[0]` only if
`maxs[axis] > dist` and into `children[1]` only if `mins[axis] < dist`. -/
def SV_AreaEntities_r (mins maxs : Vec3) (maxcount : ℤ) :
    ANode → List ℕ → List ℕ
  | .leaf ents, acc => (areaEntsLoop mins maxs maxcount ents acc).1
  | .node axis dist ents c0 c1, acc =>
    let res := areaEntsLoop mins maxs maxcount ents acc
    if res.2 then res.1
    else
      let acc2 := if maxs.nth axis > dist then
          SV_AreaEntities_r mins maxs maxcount c0 res.1
        else res.1
      if mins.nth axis < dist then SV_AreaEntities_r mins maxs maxcount c1 acc2
      else acc2

/-- `SV_AreaEntities`: run the recursion from the root with an empty list
and return the filled list together with the final `count`. -/
def SV_AreaEntities (mins maxs : Vec3) (t : ANode) (maxcount : ℤ) :
    List ℕ × ℤ :=
  let l := SV_AreaEntities_r mins maxs maxcount t []
  (l, (l.length : ℤ))

/-- All entities linked anywhere in the tree, in the traversal order of
`SV_AreaEntities_r` (own chain, then `children[0]`, then `children[1]`). -/
def allEnts : ANode → List AEnt
  | .leaf ents => ents
  | .node _ _ ents c0 c1 => ents ++ (allEnts c0 ++ allEnts c1)

/-- Placement consistency established by `SV_LinkEntity`'s descent: every
entity stored in the `children[0]` subtree of an internal node has
`absmin[axis] > dist` there, and every entity in the `children[1]` subtree
has `absmax[axis] < dist`. -/
def consistentB : ANode → Bool
  | .leaf _ => true
  | .node axis dist _ c0 c1 =>
    (allEnts c0).all (fun e => e.absmin.nth axis > dist) &&
    (allEnts c1).all (fun e => e.absmax.nth axis < dist) &&
    consistentB c0 && consistentB c1

theorem entOverlap_eq_false_of_min_gt (e : AEnt) (mins maxs : Vec3) (i : Fin 3)
    (h : maxs.nth i < e.absmin.nth i) : entOverlap e mins maxs = false := by
  fin_cases i <;> simp only [Vec3.nth] at h <;> simp [entOverlap, h]

theorem entOverlap_eq_false_of_max_lt (e : AEnt) (mins maxs : Vec3) (i : Fin 3)
    (h : e.absmax.nth i < mins.nth i) : entOverlap e mins maxs = false := by
  fin_cases i <;> simp only [Vec3.nth] at h <;> simp [entOverlap, h]

theorem areaEntsLoop_no_cap (mins maxs : Vec3) (maxcount : ℤ) (ents : List AEnt) :
    ∀ acc : List ℕ,
      (acc.length : ℤ) +
        ((ents.filter (fun e => entOverlap e mins maxs)).length : ℤ) ≤ maxcount →
      areaEntsLoop mins maxs maxcount ents acc =
        (acc ++ (ents.filter (fun e => entOverlap e mins maxs)).map AEnt.num, false) := by
  induction ents with
  | nil => intro acc _; simp [areaEntsLoop]
  | cons e rest ih =>
    intro acc h
    by_cases hov : entOverlap e mins maxs = true
    · simp only [List.filter_cons, hov, if_true] at h ⊢
      have hne : (acc.length : ℤ) ≠ maxcount := by
        simp only [List.length_cons] at h
        push_cast at h
        omega
      rw [areaEntsLoop, if_pos hov, if_neg hne, ih]
      · simp
      · simp only [List.length_append, List.length_cons, List.length_map,
          List.length_nil] at h ⊢
        push_cast at h ⊢
        omega
    · simp only [List.filter_cons, hov, if_false, Bool.false_eq_true] at h ⊢
      rw [areaEntsLoop, if_neg hov, ih _ h]

theorem areaEntsLoop_length_le (mins maxs : Vec3) (maxcount : ℤ) (ents : List AEnt) :
    ∀ acc : List ℕ, (acc.length : ℤ) ≤ maxcount →
      (((areaEntsLoop mins maxs maxcount ents acc).1.length : ℤ)) ≤ maxcount := by
  induction ents with
  | nil => intro acc h; simpa [areaEntsLoop] using h
  | cons e rest ih =>
    intro acc h
    by_cases hov : entOverlap e mins maxs = true
    · rw [areaEntsLoop, if_pos hov]
      by_cases hc : (acc.length : ℤ) = maxcount
      · rw [if_pos hc]; exact hc.le
      · rw [if_neg hc]
        refine ih _ ?_
        simp only [List.length_append, List.length_cons, List.length_nil]
        push_cast
        omega
    · rw [areaEntsLoop, if_neg hov]; exact ih _ h

theorem SV_AreaEntities_r_exact (mins maxs : Vec3) (maxcount : ℤ) (t : ANode) :
    ∀ acc : List ℕ, consistentB t = true →
      (acc.length : ℤ) +
        (((allEnts t).filter (fun e => entOverlap e mins maxs)).length : ℤ) ≤ maxcount →
      SV_AreaEntities_r mins maxs maxcount t acc =
        acc ++ ((allEnts t).filter (fun e => entOverlap e mins maxs)).map AEnt.num := by
  induction t with
  | leaf ents =>
    intro acc _ h
    rw [SV_AreaEntities_r, areaEntsLoop_no_cap mins maxs maxcount ents acc h]
    rfl
  | node axis dist ents c0 c1 ih0 ih1 =>
    intro acc hcons hlen
    simp only [consistentB, Bool.and_eq_true, List.all_eq_true,
      decide_eq_true_eq] at hcons
    obtain ⟨⟨⟨h0, h1⟩, hc0⟩, hc1⟩ := hcons
    simp only [allEnts, List.filter_append, List.length_append] at hlen ⊢
    have hents : (acc.length : ℤ) +
        ((ents.filter (fun e => entOverlap e mins maxs)).length : ℤ) ≤ maxcount := by
      push_cast at hlen ⊢; omega
    rw [SV_AreaEntities_r, areaEntsLoop_no_cap mins maxs maxcount ents acc hents]
    simp only [Bool.false_eq_true, if_false]
    set f0 := ents.filter (fun e => entOverlap e mins maxs) with hf0
    set fc0 := (allEnts c0).filter (fun e => entOverlap e mins maxs) with hfc0
    set fc1 := (allEnts c1).filter (fun e => entOverlap e mins maxs) with hfc1
    have step0 : (if maxs.nth axis > dist then
        SV_AreaEntities_r mins maxs maxcount c0 (acc ++ f0.map AEnt.num)
        else acc ++ f0.map AEnt.num) = acc ++ f0.map AEnt.num ++ fc0.map AEnt.num := by
      by_cases hgt : maxs.nth axis > dist
      · rw [if_pos hgt, ih0]
        · exact hc0
        · simp only [List.length_append, List.length_map]
          push_cast at hlen ⊢; omega
      · rw [if_neg hgt]
        have : fc0 = [] := by
          rw [hfc0, List.filter_eq_nil_iff]
          intro e he
          have := entOverlap_eq_false_of_min_gt e mins maxs axis
            (lt_of_le_of_lt (not_lt.mp hgt) (h0 e he))
          simp [this]
        simp [this]
    rw [step0]
    by_cases hlt : mins.nth axis < dist
    · rw [if_pos hlt, ih1]
      · simp [List.append_assoc]
      · exact hc1
      · simp only [List.length_append, List.length_map]
        push_cast at hlen ⊢; omega
    · rw [if_neg hlt]
      have : fc1 = [] := by
        rw [hfc1, List.filter_eq_nil_iff]
        intro e he
        have := entOverlap_eq_false_of_max_lt e mins maxs axis
          (lt_of_lt_of_le (h1 e he) (not_lt.mp hlt))
        simp [this]
      simp [this, List.append_assoc]

theorem SV_AreaEntities_r_length_le (mins maxs : Vec3) (maxcount : ℤ) (t : ANode) :
    ∀ acc : List ℕ, (acc.length : ℤ) ≤ maxcount →
      (((SV_AreaEntities_r mins maxs maxcount t acc).length : ℤ)) ≤ maxcount := by
  induction t with
  | leaf ents =>
    intro acc h
    rw [SV_AreaEntities_r]
    exact areaEntsLoop_length_le mins maxs maxcount ents acc h
  | node axis dist ents c0 c1 ih0 ih1 =>
    intro acc h
    rw [SV_AreaEntities_r]
    have hloop := areaEntsLoop_length_le mins maxs maxcount ents acc h
    by_cases hcap : (areaEntsLoop mins maxs maxcount ents acc).2 = true
    · simp only [hcap, if_true]; exact hloop
    · simp only [hcap, if_false]
      have hacc2 : (((if maxs.nth axis > dist then
          SV_AreaEntities_r mins maxs maxcount c0 (areaEntsLoop mins maxs maxcount ents acc).1
          else (areaEntsLoop mins maxs maxcount ents acc).1).length : ℤ)) ≤ maxcount := by
        by_cases hgt : maxs.nth axis > dist
        · rw [if_pos hgt]; exact ih0 _ hloop
        · rw [if_neg hgt]; exact hloop
      by_cases hlt : mins.nth axis < dist
      · rw [if_pos hlt]; exact ih1 _ hacc2
      · rw [if_neg hlt]; exact hacc2

/-- C1 (amended): for every placement-consistent sector tree, if strictly
fewer than `maxcount` linked entities overlap the closed query box, then
`SV_AreaEntities` returns exactly the entity numbers of the overlapping
entities (in traversal order), independent of which node holds each entity;
and for every nonnegative `maxcount` the returned count never exceeds
`maxcount`.  (The nonnegativity proviso is the amendment: `maxcount` is a C
`int`, and a negative cap is exceeded by the very first collected
entity.) -/
theorem C1_area_entities_exact (mins maxs : Vec3) (t : ANode) (maxcount : ℤ)
    (hcons : consistentB t = true) :
    ((((allEnts t).filter (fun e => entOverlap e mins maxs)).length : ℤ) < maxcount →
      SV_AreaEntities mins maxs t maxcount =
        (((allEnts t).filter (fun e => entOverlap e mins maxs)).map AEnt.num,
         (((allEnts t).filter (fun e => entOverlap e mins maxs)).length : ℤ))) ∧
    (0 ≤ maxcount → (SV_AreaEntities mins maxs t maxcount).2 ≤ maxcount) := by
  constructor
  · intro hcount
    have h0 : ((([] : List ℕ).length : ℤ)) +
        (((allEnts t).filter (fun e => entOverlap e mins maxs)).length : ℤ) ≤ maxcount := by
      simpa using hcount.le
    rw [SV_AreaEntities, SV_AreaEntities_r_exact mins maxs maxcount t [] hcons h0]
    simp
  · intro hnn
    have := SV_AreaEntities_r_length_le mins maxs maxcount t [] (by simpa using hnn)
    simpa [SV_AreaEntities] using this

/-- Witness for C1 on a concrete two-level tree: the root splits on X at 0;
one entity straddles the root, one sits in each child; the query box meets
exactly two of the three. -/
theorem C1_area_entities_exact_witness :
    (consistentB (ANode.node 0 0 [⟨7, ⟨-2, -2, -2⟩, ⟨2, 2, 2⟩⟩]
        (ANode.leaf [⟨8, ⟨1, -1, -1⟩, ⟨3, 1, 1⟩⟩])
        (ANode.leaf [⟨9, ⟨-3, -1, -1⟩, ⟨-1, 1, 1⟩⟩])) = true) ∧
    SV_AreaEntities ⟨0, 0, 0⟩ ⟨5, 5, 5⟩
        (ANode.node 0 0 [⟨7, ⟨-2, -2, -2⟩, ⟨2, 2, 2⟩⟩]
          (ANode.leaf [⟨8, ⟨1, -1, -1⟩, ⟨3, 1, 1⟩⟩])
          (ANode.leaf [⟨9, ⟨-3, -1, -1⟩, ⟨-1, 1, 1⟩⟩])) 10 = ([7, 8], 2) := by
  constructor
  · decide
  · have h := (C1_area_entities_exact ⟨0, 0, 0⟩ ⟨5, 5, 5⟩
      (ANode.node 0 0 [⟨7, ⟨-2, -2, -2⟩, ⟨2, 2, 2⟩⟩]
        (ANode.leaf [⟨8, ⟨1, -1, -1⟩, ⟨3, 1, 1⟩⟩])
        (ANode.leaf [⟨9, ⟨-3, -1, -1⟩, ⟨-1, 1, 1⟩⟩])) 10 (by decide)).1 (by decide)
    rw [h]
    decide

/-- C1 counterexample: with the caller-supplied cap `maxcount = -1` (a C
`int`) and a single overlapping linked entity, `SV_AreaEntities` returns
count 1, which exceeds the cap; so the returned count does not stay below
`maxcount` in every case. -/
theorem C1_counterexample_negative_cap :
    ¬ ((SV_AreaEntities vec3origin vec3origin
        (ANode.leaf [⟨0, ⟨-1, -1, -1⟩, ⟨1, 1, 1⟩⟩]) (-1)).2 ≤ -1) := by
  decide

/-! ## Entity unlinking (`SV_UnlinkEntity`) -/

/-- The registry state `SV_UnlinkEntity` touches, for one entity: the member
chains of all sector nodes (by node index), the entity's `worldSector` back
reference, and the external `r->linked` flag. -/
structure UnlinkState where
  sectors : List (List ℕ)
  worldSector : Option ℕ
  linked : Bool
deriving DecidableEq

/-- Removal of the first occurrence of `n` from a member chain, as done by
the head test plus predecessor scan in `SV_UnlinkEntity`; the flag reports
whether the entity was found (its absence triggers the
`not found in worldSector` warning). -/
def removeFromChain (n : ℕ) : List ℕ → List ℕ × Bool
  | [] => ([], false)
  | x :: rest =>
    if x = n then (rest, true)
    else
      let r := removeFromChain n rest
      (x :: r.1, r.2)

/-- `SV_UnlinkEntity`: clear the `linked` flag; if there is no owning
sector, return (already unlinked); otherwise clear `worldSector` and remove
the entity from that sector's chain.  The returned flag is `true` iff the
consistency warning was printed. -/
def SV_UnlinkEntity (entNum : ℕ) (s : UnlinkState) : UnlinkState × Bool :=
  let s0 := { s with linked := false }
  match s0.worldSector with
  | none => (s0, false)
  | some ws =>
    let s1 := { s0 with worldSector := none }
    let r := removeFromChain entNum (s1.sectors.getD ws [])
    ({ s1 with sectors := s1.sectors.set ws r.1 }, !r.2)

/-- C9: unlinking an entity that has no owning sector leaves every node's
member list unchanged, leaves the entity unlinked, and prints no warning;
and for every state, unlinking twice yields exactly the state of unlinking
once (idempotence), again without a warning on the second call. -/
theorem C9_unlink_noop (entNum : ℕ) (s : UnlinkState)
    (h : s.worldSector = none) :
    (SV_UnlinkEntity entNum s).1.sectors = s.sectors ∧
    (SV_UnlinkEntity entNum s).1.worldSector = none ∧
    (SV_UnlinkEntity entNum s).2 = false ∧
    (∀ s' : UnlinkState,
      SV_UnlinkEntity entNum (SV_UnlinkEntity entNum s').1 =
        ((SV_UnlinkEntity entNum s').1, false)) := by
  refine ⟨?_, ?_, ?_, ?_⟩
  · rw [SV_UnlinkEntity]
    simp [h]
  · rw [SV_UnlinkEntity]
    simp [h]
  · rw [SV_UnlinkEntity]
    simp [h]
  · intro s'
    have hws : (SV_UnlinkEntity entNum s').1.worldSector = none := by
      rw [SV_UnlinkEntity]
      rcases h' : s'.worldSector with _ | ws <;> simp [h']
    have hlinked : (SV_UnlinkEntity entNum s').1.linked = false := by
      rw [SV_UnlinkEntity]
      rcases h' : s'.worldSector with _ | ws <;> simp [h']
    rw [SV_UnlinkEntity]
    rcases hr : (SV_UnlinkEntity entNum s').1 with ⟨secs, ws, lk⟩
    simp only at hws hlinked ⊢
    rw [hr] at hws hlinked
    simp only at hws hlinked
    subst hws
    subst hlinked
    rfl

/-- Witness for C9 at a concrete already-unlinked state. -/
theorem C9_unlink_noop_witness :
    ((⟨[[1, 2], []], none, true⟩ : UnlinkState).worldSector = none) ∧
    (SV_UnlinkEntity 5 ⟨[[1, 2], []], none, true⟩).1.sectors = [[1, 2], []] ∧
    (SV_UnlinkEntity 5 ⟨[[1, 2], []], none, true⟩).1.worldSector = none ∧
    (SV_UnlinkEntity 5 ⟨[[1, 2], []], none, true⟩).2 = false := by
  have h := C9_unlink_noop 5 ⟨[[1, 2], []], none, true⟩ rfl
  exact ⟨rfl, h.1, h.2.1, h.2.2.1⟩

/-! ## Size encoding during linking (`SV_LinkEntity`, lines 227-261)

Constants below come from the engine's shared headers, which are not part
of this repository slice; none of the theorems depend on their concrete
values (the sentinel argument only uses that the low byte of the packed
value determines it). -/

/-- `SOLID_BMODEL` sentinel (`0xffffff`). -/
def SOLID_BMODEL : ℕ := 0xffffff

/-- `CONTENTS_SOLID`. -/
def CONTENTS_SOLID : ℤ := 0x00000001

/-- `CONTENTS_BODY`. -/
def CONTENTS_BODY : ℤ := 0x00000100

/-- C conversion of a float to `int`: truncation toward zero, exact on our
rational model. -/
def ratTrunc (q : ℚ) : ℤ := Int.tdiv q.num (q.den : ℤ)

/-- The fields of the entity that the size-encoding step reads. -/
structure LinkEnt where
  bmodel : Bool
  contents : ℤ
  mins : Vec3
  maxs : Vec3
deriving DecidableEq

/-- The value stored into `gEnt->s->solid` by `SV_LinkEntity`: bmodels get
the sentinel; solid/body entities pack the three clamped extents
`(k<<16)|(j<<8)|i` with the low byte decremented if the pack collides with
the sentinel; other entities get 0. -/
def SV_LinkEntity_solid (g : LinkEnt) : ℕ :=
  if g.bmodel then SOLID_BMODEL
  else if g.contents.land (CONTENTS_SOLID.lor CONTENTS_BODY) ≠ 0 then
    let i0 : ℤ := ratTrunc g.maxs.x
    let i : ℤ := if i0 < 1 then 1 else if i0 > 255 then 255 else i0
    let j0 : ℤ := ratTrunc (-g.mins.z)
    let j : ℤ := if j0 < 1 then 1 else if j0 > 255 then 255 else j0
    let k0 : ℤ := ratTrunc (g.maxs.z + 32)
    let k : ℤ := if k0 < 1 then 1 else if k0 > 255 then 255 else k0
    let s := k.toNat <<< 16 ||| j.toNat <<< 8 ||| i.toNat
    if s = SOLID_BMODEL then k.toNat <<< 16 ||| j.toNat <<< 8 ||| (i.toNat - 1)
    else s
  else 0

/-- Clamp into `[lo, hi]` (the claim's `clamp`). -/
def clampInt (lo hi x : ℤ) : ℤ := max lo (min hi x)

theorem clamp_ite_eq (x : ℤ) :
    (if x < 1 then 1 else if x > 255 then (255 : ℤ) else x) = clampInt 1 255 x := by
  unfold clampInt
  by_cases h1 : x < 1
  · rw [if_pos h1]
    omega
  · rw [if_neg h1]
    by_cases h2 : x > 255
    · rw [if_pos h2]; omega
    · rw [if_neg h2]; omega

theorem clampInt_mem (x : ℤ) : 1 ≤ clampInt 1 255 x ∧ clampInt 1 255 x ≤ 255 := by
  unfold clampInt; omega

/-- The low byte determines a packed `(k<<16)|(j<<8)|i` value: two packs
with the same `k`, `j` and different low bytes (both below 256) differ. -/
theorem pack_low_byte_inj (k j i i' : ℕ) (hi : i < 256) (hi' : i' < 256)
    (h : k <<< 16 ||| j <<< 8 ||| i = k <<< 16 ||| j <<< 8 ||| i') : i = i' := by
  apply Nat.eq_of_testBit_eq
  intro t
  by_cases ht : t < 8
  · have ht16 : (decide (16 ≤ t)) = false := by simp; omega
    have ht8 : (decide (8 ≤ t)) = false := by simp; omega
    have e1 : (k <<< 16 ||| j <<< 8 ||| i).testBit t = i.testBit t := by
      simp [Nat.testBit_lor, Nat.testBit_shiftLeft, ht16, ht8]
    have e2 : (k <<< 16 ||| j <<< 8 ||| i').testBit t = i'.testBit t := by
      simp [Nat.testBit_lor, Nat.testBit_shiftLeft, ht16, ht8]
    rw [← e1, h, e2]
  · have hle : (256 : ℕ) ≤ 2 ^ t := by
      calc (256 : ℕ) = 2 ^ 8 := by norm_num
      _ ≤ 2 ^ t := Nat.pow_le_pow_right (by norm_num) (by omega)
    rw [Nat.testBit_eq_false_of_lt (lt_of_lt_of_le hi hle),
      Nat.testBit_eq_false_of_lt (lt_of_lt_of_le hi' hle)]

/-- C8: for a non-bmodel entity with solid/body contents, the encoded
`solid` equals the claim's packed-clamp formula (with the low byte
decremented when the pack collides with the sentinel), and in particular
never equals `SOLID_BMODEL`; a non-bmodel entity without solid/body
contents encodes `solid = 0`. -/
theorem C8_solid_encoding (g : LinkEnt) (hb : g.bmodel = false) :
    (g.contents.land (CONTENTS_SOLID.lor CONTENTS_BODY) ≠ 0 →
      (SV_LinkEntity_solid g =
        (let k := clampInt 1 255 (ratTrunc (g.maxs.z + 32))
         let j := clampInt 1 255 (ratTrunc (-g.mins.z))
         let i := clampInt 1 255 (ratTrunc g.maxs.x)
         let v := k.toNat <<< 16 ||| j.toNat <<< 8 ||| i.toNat
         if v = SOLID_BMODEL then k.toNat <<< 16 ||| j.toNat <<< 8 ||| (i.toNat - 1)
         else v)) ∧
      SV_LinkEntity_solid g ≠ SOLID_BMODEL) ∧
    (g.contents.land (CONTENTS_SOLID.lor CONTENTS_BODY) = 0 →
      SV_LinkEntity_solid g = 0) := by
  constructor
  · intro hc
    have hdef : SV_LinkEntity_solid g =
        (let k := clampInt 1 255 (ratTrunc (g.maxs.z + 32))
         let j := clampInt 1 255 (ratTrunc (-g.mins.z))
         let i := clampInt 1 255 (ratTrunc g.maxs.x)
         let v := k.toNat <<< 16 ||| j.toNat <<< 8 ||| i.toNat
         if v = SOLID_BMODEL then k.toNat <<< 16 ||| j.toNat <<< 8 ||| (i.toNat - 1)
         else v) := by
      rw [SV_LinkEntity_solid, if_neg (by simp [hb]), if_pos hc]
      simp only [clamp_ite_eq]
    refine ⟨hdef, ?_⟩
    rw [hdef]
    simp only
    set k := clampInt 1 255 (ratTrunc (g.maxs.z + 32)) with hk
    set j := clampInt 1 255 (ratTrunc (-g.mins.z)) with hj
    set i := clampInt 1 255 (ratTrunc g.maxs.x) with hi
    have hkm := clampInt_mem (ratTrunc (g.maxs.z + 32))
    have hjm := clampInt_mem (ratTrunc (-g.mins.z))
    have him := clampInt_mem (ratTrunc g.maxs.x)
    rw [← hk] at hkm; rw [← hj] at hjm; rw [← hi] at him
    by_cases hs : k.toNat <<< 16 ||| j.toNat <<< 8 ||| i.toNat = SOLID_BMODEL
    · rw [if_pos hs]
      intro habs
      have : i.toNat - 1 = i.toNat := by
        refine pack_low_byte_inj k.toNat j.toNat _ _ (by omega) (by omega) ?_
        rw [habs, ← hs]
      omega
    · rw [if_neg hs]; exact hs
  · intro hc
    rw [SV_LinkEntity_solid, if_neg (by simp [hb]), if_neg (by simp [hc])]

/-- A concrete non-bmodel solid entity: a 15x15 half-extent box from z=-24
to z=40. -/
def c8ent : LinkEnt := ⟨false, 1, ⟨-10, -10, -24⟩, ⟨15, 15, 40⟩⟩

/-- Witness for C8 at `c8ent`: contents are solid, the encoding avoids the
sentinel, and evaluates to `(72<<16)|(24<<8)|15`. -/
theorem C8_solid_encoding_witness :
    c8ent.contents.land (CONTENTS_SOLID.lor CONTENTS_BODY) ≠ 0 ∧
    SV_LinkEntity_solid c8ent ≠ SOLID_BMODEL ∧
    SV_LinkEntity_solid c8ent = 4724751 := by
  refine ⟨by decide, ((C8_solid_encoding c8ent rfl).1 (by decide)).2, ?_⟩
  have hz : c8ent.maxs.z + 32 = (72 : ℚ) := by norm_num [c8ent]
  rw [SV_LinkEntity_solid, if_neg (by decide), if_pos (by decide), hz]
  decide

/-! ## Move clipper (`SV_ClipMoveToEntities`, `SV_Trace`)

Engine constants from the shared headers (outside this repository slice).
The theorems below compare content masks only against these named
constants, so they do not depend on the concrete values. -/

/-- `MAX_GENTITIES`. -/
def MAX_GENTITIES : ℕ := 1024

/-- `ENTITYNUM_NONE` (`MAX_GENTITIES - 1`). -/
def ENTITYNUM_NONE : ℕ := 1023

/-- `ENTITYNUM_WORLD` (`MAX_GENTITIES - 2`). -/
def ENTITYNUM_WORLD : ℕ := 1022

/-- `CONTENTS_LIGHTSABER`. -/
def CONTENTS_LIGHTSABER : ℤ := 0x00040000

/-- `CONTENTS_CORPSE`. -/
def CONTENTS_CORPSE : ℤ := 0x00000200

/-- `CONTENTS_ITEM`. -/
def CONTENTS_ITEM : ℤ := 0x00100000

/-- `CONTENTS_TERRAIN`. -/
def CONTENTS_TERRAIN : ℤ := 0x00001000

/-- `CONTENTS_NOSHOT`. -/
def CONTENTS_NOSHOT : ℤ := 0x00200000

/-- `MASK_SHOT`. -/
def MASK_SHOT : ℤ :=
  CONTENTS_SOLID.lor (CONTENTS_BODY.lor (CONTENTS_ITEM.lor
    (CONTENTS_CORPSE.lor CONTENTS_TERRAIN)))

/-- The fields of `trace_t` this subsystem reads and writes. -/
structure TraceResult where
  allsolid : Bool
  startsolid : Bool
  fraction : ℚ
  endpos : Vec3
  planeNormal : Vec3
  surfaceFlags : ℤ
  entityNum : ℕ
deriving DecidableEq

/-- The candidate-entity fields the clip loop reads: `s->number`,
`r->ownerNum`, the `SVF_OWNERNOTSHARED` flag, the `ET_MISSILE` type test,
`r->contents`, the `EF_DEAD` flag, and whether a ghoul2 model is present. -/
structure ClipEnt where
  num : ℕ
  ownerNum : ℕ
  ownerNotShared : Bool
  isMissile : Bool
  contents : ℤ
  dead : Bool
  hasGhoul : Bool
deriving DecidableEq

/-- The per-sweep configuration of the candidate loop: `passEntityNum`,
`contentmask`, the precomputed `passOwnerNum` (`-1` when absent) and
`thisOwnerShared`, and the `G2TRFLAG_*` trace flags in use. -/
structure ClipConfig where
  passEntityNum : ℕ
  contentmask : ℤ
  passOwnerNum : ℤ
  thisOwnerShared : Bool
  doGhoulTrace : Bool
  hitCorpses : Bool
  getSurfIndex : Bool
deriving DecidableEq

/-- A broad-phase candidate together with the outputs of the external
oracles for it: the `CM_TransformedBoxTrace` result, and the best ghoul2
mesh hit (`none` when no mesh polygon is struck, forcing the rollback). -/
structure Candidate where
  ent : ClipEnt
  cmResult : TraceResult
  g2Hit : Option (Vec3 × Vec3 × ℤ)
deriving DecidableEq

/-- Rules 3 and 4 of the ownership filter (reached by candidates that were
not excluded earlier): exclude a shared-ownership sibling of the pass
entity's owner, and exclude a shared-ownership missile of that owner. -/
def restFilter (cfg : ClipConfig) (c : ClipEnt) : Bool :=
  if (c.ownerNum : ℤ) = cfg.passOwnerNum ∧ c.ownerNotShared = false ∧
      cfg.thisOwnerShared = true then true
  else if c.isMissile = true ∧ c.ownerNotShared = false ∧
      (c.ownerNum : ℤ) = cfg.passOwnerNum then true
  else false

/-- The candidate filter of `SV_ClipMoveToEntities` (lines 568-598):
`true` means the candidate is skipped (`continue`).  Mirrors the source
nesting: self; owned-by-pass-entity (with the not-shared shot/lightsaber
exception falling through to the remaining rules); then `restFilter`. -/
def filterExcluded (cfg : ClipConfig) (c : ClipEnt) : Bool :=
  if cfg.passEntityNum ≠ ENTITYNUM_NONE then
    if c.num = cfg.passEntityNum then true
    else if c.ownerNum = cfg.passEntityNum then
      if c.ownerNotShared = true then
        if cfg.contentmask ≠ MASK_SHOT.lor CONTENTS_LIGHTSABER ∧
            cfg.contentmask ≠ MASK_SHOT then true
        else restFilter cfg c
      else true
    else restFilter cfg c
  else false

/-- The content checks after the ownership filter (lines 600-609): skip if
the candidate's contents share no bits with the mask, or if a
shot/lightsaber mask targets a positively-numbered `CONTENTS_NOSHOT`
candidate. -/
def contentSkip (cfg : ClipConfig) (c : ClipEnt) : Bool :=
  if cfg.contentmask.land c.contents = 0 then true
  else if (cfg.contentmask = MASK_SHOT.lor CONTENTS_LIGHTSABER ∨
      cfg.contentmask = MASK_SHOT) ∧
      (0 < c.contents ∧ c.contents.land CONTENTS_NOSHOT ≠ 0) then true
  else false

/-- One iteration of the candidate loop body (lines 567-801), without the
leading `allsolid` early return.  Returns the updated aggregate trace and
whether the candidate reached the exact clip (the `CM_TransformedBoxTrace`
call).  `tr1`/`tr2` are the local `trace` variable after its `entityNum`
assignments; `s1`/`s2` are `clip->trace` after the solidity bookkeeping and
the fraction-improvement replacement; `s3` applies the ghoul2 mesh
refinement (rollback to `oldTrace` when no mesh polygon is struck). -/
def clipStepTested (cfg : ClipConfig) (s : TraceResult) (c : Candidate) :
    TraceResult × Bool :=
  if filterExcluded cfg c.ent = true then (s, false)
  else if contentSkip cfg c.ent = true then (s, false)
  else
    let oldTrace := s
    let tr0 := c.cmResult
    let tr1 := if tr0.allsolid = true ∨ tr0.startsolid = true then
        { tr0 with entityNum := c.ent.num } else tr0
    let s1 :=
      if tr0.allsolid = true then { s with allsolid := true }
      else if tr0.startsolid = true then
        { s with startsolid := true, entityNum := c.ent.num }
      else s
    let tr2 := if tr1.fraction < s1.fraction then
        { tr1 with entityNum := c.ent.num } else tr1
    let s2 :=
      if tr1.fraction < s1.fraction then
        { tr2 with startsolid := tr2.startsolid || s1.startsolid }
      else s1
    let s3 :=
      if cfg.doGhoulTrace = true ∧ tr2.entityNum = c.ent.num ∧
          c.ent.hasGhoul = true ∧ (cfg.hitCorpses = true ∨ c.ent.dead = false) then
        match c.g2Hit with
        | none => oldTrace
        | some (pos, normal, surf) =>
          let sA := { s2 with endpos := pos, planeNormal := normal }
          if cfg.getSurfIndex = true ∧ sA.entityNum = c.ent.num then
            { sA with surfaceFlags := surf }
          else sA
      else s2
    (s3, true)

/-- The aggregate-trace effect of one candidate. -/
def clipStep (cfg : ClipConfig) (s : TraceResult) (c : Candidate) : TraceResult :=
  (clipStepTested cfg s c).1

/-- The candidate loop of `SV_ClipMoveToEntities`: before each candidate,
return if the aggregate is already `allsolid`. -/
def clipLoop (cfg : ClipConfig) : TraceResult → List Candidate → TraceResult
  | s, [] => s
  | s, c :: rest =>
    if s.allsolid = true then s else clipLoop cfg (clipStep cfg s c) rest

/-- The external collaborators of a sweep: the entity store, the
per-candidate exact-clip oracle (`CM_TransformedBoxTrace` for this sweep's
segment, as a function of the entity and the local bounds), the ghoul2
mesh-collision oracle, and the populated sector tree. -/
structure ClipEnv where
  store : ℕ → ClipEnt
  cmEnt : ℕ → Vec3 → Vec3 → TraceResult
  g2 : ℕ → Option (Vec3 × Vec3 × ℤ)
  tree : ANode

/-- The `G2TRFLAG_*` bits of the `traceFlags` argument read by this
subsystem. -/
structure TraceFlags where
  doGhoulTrace : Bool
  hitCorpses : Bool
  getSurfIndex : Bool
deriving DecidableEq

/-- `SV_ClipMoveToEntities`: broad-phase query on the move box, derivation
of `passOwnerNum`/`thisOwnerShared` from the pass entity, then the
candidate loop starting from the world-clip result. -/
def SV_ClipMoveToEntities (env : ClipEnv) (boxmins boxmaxs mins maxs : Vec3)
    (passEntityNum : ℕ) (contentmask : ℤ) (flags : TraceFlags)
    (trace0 : TraceResult) : TraceResult :=
  let touchlist := (SV_AreaEntities boxmins boxmaxs env.tree (MAX_GENTITIES : ℤ)).1
  let passEnt := env.store passEntityNum
  let passOwnerNum : ℤ :=
    if passEntityNum ≠ ENTITYNUM_NONE ∧ passEnt.ownerNum ≠ ENTITYNUM_NONE then
      (passEnt.ownerNum : ℤ)
    else -1
  let thisOwnerShared : Bool := !passEnt.ownerNotShared
  let cfg : ClipConfig := ⟨passEntityNum, contentmask, passOwnerNum,
    thisOwnerShared, flags.doGhoulTrace, flags.hitCorpses, flags.getSurfIndex⟩
  clipLoop cfg trace0
    (touchlist.map (fun n => ⟨env.store n, env.cmEnt n mins maxs, env.g2 n⟩))

/-- `SV_Trace`: substitute the zero vector for null bounds, clip to the
static world (`CM_BoxTrace`, the `cmWorld` oracle), return immediately when
blocked at the start, otherwise build the move box and clip to entities.
The world oracle closes over `start`/`end`/`capsule` and is a function of
the local bounds actually passed on. -/
def SV_Trace (cmWorld : Vec3 → Vec3 → TraceResult) (env : ClipEnv)
    (start : Vec3) (minsOpt maxsOpt : Option Vec3) (endp : Vec3)
    (passEntityNum : ℕ) (contentmask : ℤ) (flags : TraceFlags) : TraceResult :=
  let mins := minsOpt.getD vec3origin
  let maxs := maxsOpt.getD vec3origin
  let wt0 := cmWorld mins maxs
  let wt := { wt0 with
    entityNum := if wt0.fraction ≠ 1 then ENTITYNUM_WORLD else ENTITYNUM_NONE }
  if wt.fraction = 0 then wt
  else
    let boxmins : Vec3 := ⟨
      if endp.x > start.x then start.x + mins.x - 1 else endp.x + mins.x - 1,
      if endp.y > start.y then start.y + mins.y - 1 else endp.y + mins.y - 1,
      if endp.z > start.z then start.z + mins.z - 1 else endp.z + mins.z - 1⟩
    let boxmaxs : Vec3 := ⟨
      if endp.x > start.x then endp.x + maxs.x + 1 else start.x + maxs.x + 1,
      if endp.y > start.y then endp.y + maxs.y + 1 else start.y + maxs.y + 1,
      if endp.z > start.z then endp.z + maxs.z + 1 else start.z + maxs.z + 1⟩
    SV_ClipMoveToEntities env boxmins boxmaxs mins maxs passEntityNum
      contentmask flags wt

theorem clipLoop_of_allsolid (cfg : ClipConfig) (s : TraceResult)
    (l : List Candidate) (h : s.allsolid = true) : clipLoop cfg s l = s := by
  cases l with
  | nil => rfl
  | cons c rest => rw [clipLoop, if_pos h]

/-- Shared computation lemma: the effect of one loop iteration on a
surviving candidate whose trace fraction strictly improves the
aggregate (mesh refinement off). -/
theorem clipStep_improves (cfg : ClipConfig)
    (s : TraceResult) (c : Candidate)
    (hga : cfg.doGhoulTrace = false)
    (hf : filterExcluded cfg c.ent = false)
    (hc : contentSkip cfg c.ent = false)
    (himp : c.cmResult.fraction < s.fraction) :
    clipStep cfg s c =
      { c.cmResult with
        entityNum := c.ent.num,
        startsolid := c.cmResult.startsolid || s.startsolid } := by
  rw [clipStep, clipStepTested, if_neg (by rw [hf]; exact Bool.false_ne_true),
    if_neg (by rw [hc]; exact Bool.false_ne_true)]
  simp only [hga, Bool.false_eq_true, false_and, if_false]
  cases ha : c.cmResult.allsolid with
  | true =>
    simp only [ha, true_or, if_pos rfl, if_true]
    have hfr : c.cmResult.fraction < s.fraction := himp
    simp only [if_pos hfr]
  | false =>
    cases hss : c.cmResult.startsolid with
    | true =>
      simp only [ha, hss, Bool.false_eq_true, false_or, if_true, if_false]
      simp only [if_pos himp]
      simp
    | false =>
      simp only [ha, hss, Bool.false_eq_true, false_or, if_false]
      simp only [if_pos himp]

/-- C2 (amended): in a sweep without the deformable-mesh refinement flag,
when a surviving candidate's exact trace reports `allsolid` (with the
trace-result invariant: its fraction is 0 and the aggregate fraction is
nonnegative), the loop result is exactly the state after that candidate —
no later candidate is tested — with `allsolid` set and fraction 0; the
triggering candidate's entity number is recorded provided the aggregate
fraction was still strictly positive when the candidate was reached. -/
theorem C2_allsolid_terminates (cfg : ClipConfig) (s : TraceResult)
    (c : Candidate) (rest : List Candidate)
    (hga : cfg.doGhoulTrace = false)
    (hs0 : s.allsolid = false)
    (hf : filterExcluded cfg c.ent = false)
    (hc : contentSkip cfg c.ent = false)
    (hall : c.cmResult.allsolid = true)
    (hfr : c.cmResult.fraction = 0)
    (hnn : 0 ≤ s.fraction) :
    clipLoop cfg s (c :: rest) = clipStep cfg s c ∧
    (clipStep cfg s c).allsolid = true ∧
    (clipStep cfg s c).fraction = 0 ∧
    (0 < s.fraction → (clipStep cfg s c).entityNum = c.ent.num) := by
  rcases lt_or_eq_of_le hnn with hpos | heq0
  · have hstep : clipStep cfg s c =
        { c.cmResult with
          entityNum := c.ent.num,
          startsolid := c.cmResult.startsolid || s.startsolid } :=
      clipStep_improves cfg s c hga hf hc (by rw [hfr]; exact hpos)
    refine ⟨?_, ?_, ?_, ?_⟩
    · rw [clipLoop, if_neg (by rw [hs0]; exact Bool.false_ne_true),
        clipLoop_of_allsolid]
      rw [hstep]
      exact hall
    · rw [hstep]; exact hall
    · rw [hstep]; exact hfr
    · intro _; rw [hstep]
  · have hnolt : ¬ c.cmResult.fraction < s.fraction := by
      rw [hfr, ← heq0]
      exact lt_irrefl 0
    have hstep : clipStep cfg s c = { s with allsolid := true } := by
      rw [clipStep, clipStepTested, if_neg (by rw [hf]; exact Bool.false_ne_true),
        if_neg (by rw [hc]; exact Bool.false_ne_true)]
      simp only [hga, hall, Bool.false_eq_true, true_or, if_true, if_false,
        false_and, hnolt]
    refine ⟨?_, ?_, ?_, ?_⟩
    · rw [clipLoop, if_neg (by rw [hs0]; exact Bool.false_ne_true),
        clipLoop_of_allsolid]
      rw [hstep]
    · rw [hstep]
    · rw [hstep]; exact heq0.symm
    · intro hpos
      rw [← heq0] at hpos
      exact absurd hpos (lt_irrefl 0)

/-- C3: in a sweep without the deformable-mesh refinement flag, whenever a
surviving candidate's exact-trace fraction strictly improves on the
aggregate, the whole per-candidate trace result replaces the aggregate
(fraction, endpoint, normal, entity number set to the candidate), except
that `startsolid` becomes the OR of the previous aggregate flag and the new
trace's flag. -/
theorem C3_improvement_replaces_or_startsolid (cfg : ClipConfig)
    (s : TraceResult) (c : Candidate)
    (hga : cfg.doGhoulTrace = false)
    (hf : filterExcluded cfg c.ent = false)
    (hc : contentSkip cfg c.ent = false)
    (himp : c.cmResult.fraction < s.fraction) :
    clipStep cfg s c =
      { c.cmResult with
        entityNum := c.ent.num,
        startsolid := c.cmResult.startsolid || s.startsolid } :=
  clipStep_improves cfg s c hga hf hc himp

/-- Shared computation lemma: a surviving candidate with no solidity flags
whose fraction does not improve the aggregate leaves the aggregate
unchanged (mesh refinement off). -/
theorem clipStep_no_change (cfg : ClipConfig) (s : TraceResult) (c : Candidate)
    (hga : cfg.doGhoulTrace = false)
    (hf : filterExcluded cfg c.ent = false)
    (hc : contentSkip cfg c.ent = false)
    (ha : c.cmResult.allsolid = false)
    (hss : c.cmResult.startsolid = false)
    (hni : ¬ c.cmResult.fraction < s.fraction) :
    clipStep cfg s c = s := by
  rw [clipStep, clipStepTested, if_neg (by rw [hf]; exact Bool.false_ne_true),
    if_neg (by rw [hc]; exact Bool.false_ne_true)]
  simp only [hga, ha, hss, Bool.false_eq_true, false_or, false_and, or_self,
    if_false, hni]

/-- C4: a candidate owned by the pass entity survives the ownership filter
iff its ownership is marked not-shared and the content mask is exactly
`MASK_SHOT` or exactly `MASK_SHOT|CONTENTS_LIGHTSABER`; a surviving
candidate that also passes the content checks reaches the exact clip, and
an excluded candidate is skipped with the aggregate unchanged. -/
theorem C4_owner_not_shared_shot_exception (cfg : ClipConfig) (c : Candidate)
    (hpass : cfg.passEntityNum ≠ ENTITYNUM_NONE)
    (hown : c.ent.ownerNum = cfg.passEntityNum)
    (hself : c.ent.num ≠ cfg.passEntityNum) :
    (filterExcluded cfg c.ent = false ↔
      (c.ent.ownerNotShared = true ∧
        (cfg.contentmask = MASK_SHOT ∨
         cfg.contentmask = MASK_SHOT.lor CONTENTS_LIGHTSABER))) ∧
    (filterExcluded cfg c.ent = false → contentSkip cfg c.ent = false →
      ∀ s, (clipStepTested cfg s c).2 = true) ∧
    (filterExcluded cfg c.ent = true →
      ∀ s, clipStepTested cfg s c = (s, false)) := by
  refine ⟨?_, ?_, ?_⟩
  · rw [filterExcluded, if_pos hpass, if_neg hself, if_pos hown]
    cases hons : c.ent.ownerNotShared with
    | false => simp [hons]
    | true =>
      have hrf : restFilter cfg c.ent = false := by
        rw [restFilter, if_neg (by simp [hons]), if_neg (by simp [hons])]
      by_cases hm : cfg.contentmask ≠ MASK_SHOT.lor CONTENTS_LIGHTSABER ∧
          cfg.contentmask ≠ MASK_SHOT
      · rw [if_pos rfl, if_pos hm]
        simp only [Bool.true_eq_false, false_iff, not_and, not_or]
        intro _
        exact ⟨hm.2, hm.1⟩
      · rw [if_pos rfl, if_neg hm, hrf]
        simp only [true_iff, true_and]
        rcases not_and_or.mp hm with h | h
        · right; exact not_not.mp h
        · left; exact not_not.mp h
  · intro h1 h2 s
    rw [clipStepTested, if_neg (by rw [h1]; exact Bool.false_ne_true),
      if_neg (by rw [h2]; exact Bool.false_ne_true)]
  · intro h1 s
    rw [clipStepTested, if_pos h1]

/-- C5: when the initial static-world clip reports `fraction = 0`,
`SV_Trace` returns exactly that world result with the hit object set to
`ENTITYNUM_WORLD`, and the result is independent of the dynamic-object
environment (store, oracles and sector tree): any two environments yield
the same result. -/
theorem C5_world_block_short_circuits (cmWorld : Vec3 → Vec3 → TraceResult)
    (env1 env2 : ClipEnv) (start : Vec3) (minsOpt maxsOpt : Option Vec3)
    (endp : Vec3) (passEntityNum : ℕ) (contentmask : ℤ) (flags : TraceFlags)
    (h0 : (cmWorld (minsOpt.getD vec3origin) (maxsOpt.getD vec3origin)).fraction
      = 0) :
    SV_Trace cmWorld env1 start minsOpt maxsOpt endp passEntityNum contentmask
        flags =
      { cmWorld (minsOpt.getD vec3origin) (maxsOpt.getD vec3origin) with
        entityNum := ENTITYNUM_WORLD } ∧
    SV_Trace cmWorld env1 start minsOpt maxsOpt endp passEntityNum contentmask
        flags =
      SV_Trace cmWorld env2 start minsOpt maxsOpt endp passEntityNum contentmask
        flags := by
  have hmain : ∀ env : ClipEnv,
      SV_Trace cmWorld env start minsOpt maxsOpt endp passEntityNum contentmask
          flags =
        { cmWorld (minsOpt.getD vec3origin) (maxsOpt.getD vec3origin) with
          entityNum := ENTITYNUM_WORLD } := by
    intro env
    rw [SV_Trace]
    simp [h0]
  exact ⟨hmain env1, (hmain env1).trans (hmain env2).symm⟩

/-- C10: `SV_Trace` with a null `mins` and/or `maxs` pointer behaves
identically to the call with the zero vector substituted; the embedding
substitutes before any use, mirroring the source's initial null checks, so
the equalities hold definitionally. -/
theorem C10_null_bounds_as_zero (cmWorld : Vec3 → Vec3 → TraceResult)
    (env : ClipEnv) (start : Vec3) (minsOpt maxsOpt : Option Vec3) (endp : Vec3)
    (passEntityNum : ℕ) (contentmask : ℤ) (flags : TraceFlags) :
    SV_Trace cmWorld env start none maxsOpt endp passEntityNum contentmask
        flags =
      SV_Trace cmWorld env start (some vec3origin) maxsOpt endp passEntityNum
        contentmask flags ∧
    SV_Trace cmWorld env start minsOpt none endp passEntityNum contentmask
        flags =
      SV_Trace cmWorld env start minsOpt (some vec3origin) endp passEntityNum
        contentmask flags ∧
    SV_Trace cmWorld env start none none endp passEntityNum contentmask flags =
      SV_Trace cmWorld env start (some vec3origin) (some vec3origin) endp
        passEntityNum contentmask flags :=
  ⟨rfl, rfl, rfl⟩

/-- C6 (amended): for a sweep the static world leaves unobstructed
(aggregate fraction 1), without the deformable-mesh refinement flag, with
exactly two surviving candidates whose traces report no solidity flags and
have fractions `f1 < f2 < 1`, the aggregate reports `f1` and the first
candidate's entity number, identically for both enumeration orders. -/
theorem C6_two_candidates_order_independent (cfg : ClipConfig)
    (s : TraceResult) (c1 c2 : Candidate)
    (hga : cfg.doGhoulTrace = false)
    (hs0 : s.allsolid = false) (hsf : s.fraction = 1)
    (hf1 : filterExcluded cfg c1.ent = false)
    (hc1 : contentSkip cfg c1.ent = false)
    (hf2 : filterExcluded cfg c2.ent = false)
    (hc2 : contentSkip cfg c2.ent = false)
    (ha1 : c1.cmResult.allsolid = false) (hss1 : c1.cmResult.startsolid = false)
    (ha2 : c2.cmResult.allsolid = false) (hss2 : c2.cmResult.startsolid = false)
    (hlt : c1.cmResult.fraction < c2.cmResult.fraction)
    (h2lt : c2.cmResult.fraction < 1) :
    clipLoop cfg s [c1, c2] =
      { c1.cmResult with entityNum := c1.ent.num, startsolid := s.startsolid } ∧
    (clipLoop cfg s [c1, c2]).fraction = c1.cmResult.fraction ∧
    (clipLoop cfg s [c1, c2]).entityNum = c1.ent.num ∧
    clipLoop cfg s [c2, c1] = clipLoop cfg s [c1, c2] := by
  have h1lt : c1.cmResult.fraction < s.fraction := by
    rw [hsf]; exact lt_trans hlt h2lt
  have h2lt' : c2.cmResult.fraction < s.fraction := by
    rw [hsf]; exact h2lt
  have hstep1 : clipStep cfg s c1 =
      { c1.cmResult with
        entityNum := c1.ent.num,
        startsolid := c1.cmResult.startsolid || s.startsolid } :=
    clipStep_improves cfg s c1 hga hf1 hc1 h1lt
  have hstep2 : clipStep cfg s c2 =
      { c2.cmResult with
        entityNum := c2.ent.num,
        startsolid := c2.cmResult.startsolid || s.startsolid } :=
    clipStep_improves cfg s c2 hga hf2 hc2 h2lt'
  have hrun12 : clipLoop cfg s [c1, c2] =
      { c1.cmResult with entityNum := c1.ent.num, startsolid := s.startsolid } := by
    rw [clipLoop, if_neg (by rw [hs0]; exact Bool.false_ne_true), clipLoop,
      if_neg (by rw [hstep1]; simp [ha1])]
    rw [clipLoop]
    rw [clipStep_no_change cfg _ c2 hga hf2 hc2 ha2 hss2
      (by rw [hstep1]; simp only; exact not_lt.mpr hlt.le)]
    rw [hstep1, hss1]
    simp
  have hrun21 : clipLoop cfg s [c2, c1] =
      { c1.cmResult with entityNum := c1.ent.num, startsolid := s.startsolid } := by
    rw [clipLoop, if_neg (by rw [hs0]; exact Bool.false_ne_true), clipLoop,
      if_neg (by rw [hstep2]; simp [ha2])]
    rw [clipLoop]
    rw [clipStep_improves cfg _ c1 hga hf1 hc1
      (by rw [hstep2]; simp only; exact hlt)]
    rw [hstep2, hss1, hss2]
    simp
  refine ⟨hrun12, ?_, ?_, hrun21.trans hrun12.symm⟩
  · rw [hrun12]
  · rw [hrun12]

/-! ## Concrete instances for the clip-loop claims -/

/-- A pass-nothing configuration: no pass entity, generic solid mask, no
ghoul2 trace flags. -/
def exCfg : ClipConfig := ⟨ENTITYNUM_NONE, 1, -1, true, false, false, false⟩

/-- An unobstructed world-clip aggregate: fraction 1, nothing hit. -/
def exWorld : TraceResult :=
  ⟨false, false, 1, ⟨0, 0, 0⟩, ⟨0, 0, 0⟩, 0, ENTITYNUM_NONE⟩

/-- Candidate whose exact trace is fully solid (`allsolid`, fraction 0). -/
def c2solid : Candidate :=
  ⟨⟨7, ENTITYNUM_NONE, false, false, 1, false, false⟩,
   ⟨true, true, 0, ⟨0, 0, 0⟩, ⟨0, 0, 0⟩, 0, 0⟩, none⟩

/-- A later candidate that would otherwise improve the fraction. -/
def c2later : Candidate :=
  ⟨⟨9, ENTITYNUM_NONE, false, false, 1, false, false⟩,
   ⟨false, false, mkRat 1 2, ⟨0, 0, 0⟩, ⟨0, 0, 0⟩, 0, 0⟩, none⟩

/-- Candidate whose exact trace starts solid with fraction 0 but is not
fully solid. -/
def c2startsolid : Candidate :=
  ⟨⟨5, ENTITYNUM_NONE, false, false, 1, false, false⟩,
   ⟨false, true, 0, ⟨0, 0, 0⟩, ⟨0, 0, 0⟩, 0, 0⟩, none⟩

/-- Witness for C2: a fully solid candidate ends the sweep at once, with
its number recorded, even though a later candidate follows. -/
theorem C2_allsolid_terminates_witness :
    clipLoop exCfg exWorld [c2solid, c2later] = clipStep exCfg exWorld c2solid ∧
    (clipStep exCfg exWorld c2solid).allsolid = true ∧
    (clipStep exCfg exWorld c2solid).fraction = 0 ∧
    (clipStep exCfg exWorld c2solid).entityNum = c2solid.ent.num := by
  have h := C2_allsolid_terminates exCfg exWorld c2solid [c2later] rfl rfl
    (by decide) (by decide) rfl rfl (by decide)
  exact ⟨h.1, h.2.1, h.2.2.1, h.2.2.2 (by decide)⟩

/-- C2 counterexample: when an earlier candidate already drove the
aggregate fraction to 0 (a start-solid hit), a later fully solid candidate
sets `allsolid` but its entity number is not recorded — the aggregate keeps
the earlier candidate's number 5, not the triggering candidate's 7. -/
theorem C2_counterexample_identifier_not_recorded :
    c2solid.cmResult.allsolid = true ∧
    c2solid.cmResult.fraction = 0 ∧
    (clipLoop exCfg exWorld [c2startsolid, c2solid]).allsolid = true ∧
    (clipLoop exCfg exWorld [c2startsolid, c2solid]).entityNum = 5 ∧
    c2solid.ent.num = 7 ∧
    (clipLoop exCfg exWorld [c2startsolid, c2solid]).entityNum ≠
      c2solid.ent.num := by
  refine ⟨rfl, rfl, ?_, ?_, rfl, ?_⟩ <;> decide

/-- An aggregate that already starts solid (embedded start detected
earlier). -/
def c3s : TraceResult :=
  ⟨false, true, 1, ⟨0, 0, 0⟩, ⟨0, 0, 0⟩, 0, ENTITYNUM_NONE⟩

/-- A clean halfway hit. -/
def c3cand : Candidate :=
  ⟨⟨4, ENTITYNUM_NONE, false, false, 1, false, false⟩,
   ⟨false, false, mkRat 1 2, ⟨1, 2, 3⟩, ⟨0, 0, 1⟩, 5, 0⟩, none⟩

/-- Witness for C3: the improving candidate replaces the whole trace but
the earlier `startsolid` is OR-ed in, not erased. -/
theorem C3_improvement_replaces_witness :
    clipStep exCfg c3s c3cand =
      { c3cand.cmResult with
        entityNum := c3cand.ent.num,
        startsolid := c3cand.cmResult.startsolid || c3s.startsolid } :=
  C3_improvement_replaces_or_startsolid exCfg c3s c3cand rfl (by decide)
    (by decide) (by decide)

/-- A shot-mask sweep excluding entity 3. -/
def c4cfg : ClipConfig := ⟨3, MASK_SHOT, -1, true, false, false, false⟩

/-- A not-shared missile owned by the excluded entity 3. -/
def c4cand : Candidate :=
  ⟨⟨5, 3, true, true, 1, false, false⟩,
   ⟨false, false, 1, ⟨0, 0, 0⟩, ⟨0, 0, 0⟩, 0, 0⟩, none⟩

/-- Witness for C4 at a concrete not-shared missile under `MASK_SHOT`. -/
theorem C4_owner_not_shared_shot_exception_witness :
    (filterExcluded c4cfg c4cand.ent = false ↔
      (c4cand.ent.ownerNotShared = true ∧
        (c4cfg.contentmask = MASK_SHOT ∨
         c4cfg.contentmask = MASK_SHOT.lor CONTENTS_LIGHTSABER))) ∧
    (clipStepTested c4cfg exWorld c4cand).2 = true := by
  refine ⟨(C4_owner_not_shared_shot_exception c4cfg c4cand (by decide) rfl
    (by decide)).1, ?_⟩
  exact (C4_owner_not_shared_shot_exception c4cfg c4cand (by decide) rfl
    (by decide)).2.1 (by decide) (by decide) exWorld

/-- A world oracle reporting a sweep fully blocked at the start. -/
def c5world : Vec3 → Vec3 → TraceResult :=
  fun _ _ => ⟨true, true, 0, ⟨0, 0, 0⟩, ⟨0, 0, 0⟩, 0, 0⟩

/-- An empty dynamic environment. -/
def c5env1 : ClipEnv :=
  ⟨fun _ => ⟨0, ENTITYNUM_NONE, false, false, 0, false, false⟩,
   fun _ _ _ => ⟨false, false, 1, ⟨0, 0, 0⟩, ⟨0, 0, 0⟩, 0, 0⟩,
   fun _ => none, ANode.leaf []⟩

/-- A populated dynamic environment with a huge linked entity the sweep
would otherwise hit halfway. -/
def c5env2 : ClipEnv :=
  ⟨fun _ => ⟨3, ENTITYNUM_NONE, false, false, 1, false, false⟩,
   fun _ _ _ => ⟨false, false, mkRat 1 2, ⟨0, 0, 0⟩, ⟨0, 0, 0⟩, 0, 0⟩,
   fun _ => none,
   ANode.leaf [⟨3, ⟨-100, -100, -100⟩, ⟨100, 100, 100⟩⟩]⟩

/-- Witness for C5: a world-blocked sweep returns the world result and is
unaffected by swapping the whole dynamic environment. -/
theorem C5_world_block_short_circuits_witness :
    SV_Trace c5world c5env1 ⟨0, 0, 0⟩ none none ⟨10, 0, 0⟩ ENTITYNUM_NONE 1
        ⟨false, false, false⟩ =
      { c5world ((none : Option Vec3).getD vec3origin)
          ((none : Option Vec3).getD vec3origin) with
        entityNum := ENTITYNUM_WORLD } ∧
    SV_Trace c5world c5env1 ⟨0, 0, 0⟩ none none ⟨10, 0, 0⟩ ENTITYNUM_NONE 1
        ⟨false, false, false⟩ =
      SV_Trace c5world c5env2 ⟨0, 0, 0⟩ none none ⟨10, 0, 0⟩ ENTITYNUM_NONE 1
        ⟨false, false, false⟩ :=
  C5_world_block_short_circuits c5world c5env1 c5env2 ⟨0, 0, 0⟩ none none
    ⟨10, 0, 0⟩ ENTITYNUM_NONE 1 ⟨false, false, false⟩ rfl

/-- The nearer of two candidates along the sweep (fraction 3/10). -/
def c6near : Candidate :=
  ⟨⟨5, ENTITYNUM_NONE, false, false, 1, false, false⟩,
   ⟨false, false, mkRat 3 10, ⟨3, 0, 0⟩, ⟨0, 0, 1⟩, 0, 0⟩, none⟩

/-- The farther of two candidates along the sweep (fraction 7/10). -/
def c6far : Candidate :=
  ⟨⟨9, ENTITYNUM_NONE, false, false, 1, false, false⟩,
   ⟨false, false, mkRat 7 10, ⟨7, 0, 0⟩, ⟨0, 1, 0⟩, 0, 0⟩, none⟩

/-- Witness for C6 at fractions 3/10 and 7/10. -/
theorem C6_two_candidates_order_independent_witness :
    clipLoop exCfg exWorld [c6near, c6far] =
      { c6near.cmResult with
        entityNum := c6near.ent.num, startsolid := exWorld.startsolid } ∧
    (clipLoop exCfg exWorld [c6near, c6far]).fraction =
      c6near.cmResult.fraction ∧
    (clipLoop exCfg exWorld [c6near, c6far]).entityNum = c6near.ent.num ∧
    clipLoop exCfg exWorld [c6far, c6near] =
      clipLoop exCfg exWorld [c6near, c6far] :=
  C6_two_candidates_order_independent exCfg exWorld c6near c6far rfl rfl rfl
    (by decide) (by decide) (by decide) (by decide) rfl rfl rfl rfl
    (by decide) (by decide)

/-- A world clip that already stopped the sweep at fraction 1/5. -/
def c6blockedWorld : TraceResult :=
  ⟨false, false, mkRat 1 5, ⟨2, 0, 0⟩, ⟨0, 0, 1⟩, 0, ENTITYNUM_WORLD⟩

/-- C6 counterexample: with the same two surviving candidates (fractions
3/10 and 7/10) but a sweep the static world already stopped at 1/5, the
aggregate reports 1/5 and the world sentinel, not the nearer candidate's
fraction and number. -/
theorem C6_counterexample_world_blocks :
    (clipLoop exCfg c6blockedWorld [c6near, c6far]).fraction = mkRat 1 5 ∧
    (clipLoop exCfg c6blockedWorld [c6near, c6far]).fraction ≠
      c6near.cmResult.fraction ∧
    (clipLoop exCfg c6blockedWorld [c6near, c6far]).entityNum =
      ENTITYNUM_WORLD ∧
    (clipLoop exCfg c6blockedWorld [c6near, c6far]).entityNum ≠
      c6near.ent.num := by
  refine ⟨?_, ?_, ?_, ?_⟩ <;> decide

end SvWorld
